import Mathlib

/-!
Verification of the HomeworkHelper scheduling/reset state engine against its
natural-language specification.

The embedding models instants as integers counting seconds on the naive local
timeline used by the program (Python naive `datetime` objects, which carry no
timezone and no DST): a `datetime` value and the `timestamp()` it round-trips
through `fromtimestamp` are identified with the same integer, civil dates are
day indices obtained by flooring, and `datetime.combine` is affine arithmetic.
Timestamps are modelled at second resolution.
-/

namespace HomeworkHelper

/-- Button state of a web shortcut, the string constants returned by
MainWindow._determine_web_button_state. -/
inductive BtnState where
  | RED
  | GREEN
  | DEFAULT
deriving DecidableEq, Repr

/-- Visual status of a managed process task (the PROC_STATE_* constants of
scheduler.py consumed by the main window). -/
inductive ProcStatus where
  | INCOMPLETE
  | COMPLETED
  | RUNNING
deriving DecidableEq, Repr

/-- Seconds in one civil day; naive datetimes have no DST, so subtracting one
civil day and subtracting 24 hours coincide. -/
def secondsPerDay : Int := 86400

/-- Civil day index of an instant, Python `dt.date()` on the naive timeline
(floor division, also correct before the epoch). -/
def dateOf (t : Int) : Int := Int.fdiv t secondsPerDay

/-- Python `datetime.combine(day, time(h, m))` on the naive seconds timeline. -/
def combine (day h m : Int) : Int := day * secondsPerDay + h * 3600 + m * 60

/-- Splitting a character list at every colon, the semantics of Python
`s.split(':')`: the empty string yields one empty field, and a trailing or
leading colon yields an empty field on that side. -/
def splitOnColon (l : List Char) : List (List Char) :=
  match l with
  | [] => [[]]
  | c :: rest =>
    let r := splitOnColon rest
    if c = ':' then [] :: r
    else
      match r with
      | [] => [[c]]
      | f :: t => (c :: f) :: t

/-- Value of a nonempty all-digit character list, otherwise `none`. -/
def decimalVal (l : List Char) : Option Nat :=
  if l = [] then none
  else if l.all Char.isDigit then
    some (l.foldl (fun a c => a * 10 + (c.toNat - 48)) 0)
  else none

/-- Model of Python `int()` applied to one colon-separated field: an optional
sign followed by one or more decimal digits (exotic accepted forms such as
surrounding whitespace or digit-group underscores are not modelled). -/
def pyIntOfChars (l : List Char) : Option Int :=
  match l with
  | '+' :: rest => (decimalVal rest).map Int.ofNat
  | '-' :: rest => (decimalVal rest).map (fun n => -(n : Int))
  | _ => (decimalVal l).map Int.ofNat

/-- The parsing step of MainWindow._determine_web_button_state lines 376-377:
`rt_hour, rt_minute = map(int, shortcut.refresh_time_str.split(':'))` followed
by `datetime.time(rt_hour, rt_minute)`.  The unpacking raises unless the split
has exactly two fields, `int` raises on a non-numeric field, and
`datetime.time` raises unless 0 ≤ hour ≤ 23 and 0 ≤ minute ≤ 59; the caller
turns every such exception into `none`. -/
def parseRefreshTime (s : String) : Option (Int × Int) :=
  match (splitOnColon s.toList).map pyIntOfChars with
  | [some h, some m] =>
    if 0 ≤ h ∧ h ≤ 23 ∧ 0 ≤ m ∧ m ≤ 59 then some (h, m) else none
  | _ => none

/-- A web shortcut record (data_models.WebShortcut as consumed by the main
window): `refresh_time_str` is the optional daily reset time-of-day string and
`last_reset_timestamp` the optional timestamp of the last click. -/
structure WebShortcut where
  id : String
  name : String
  url : String
  refresh_time_str : Option String
  last_reset_timestamp : Option Int
deriving DecidableEq, Repr

/-- Python truthiness of an optional string: `None` and the empty string are
falsy (the `if not shortcut.refresh_time_str` test on line 372). -/
def truthyStr : Option String → Bool
  | none => false
  | some s => s != ""

/-- Line 384: `datetime.fromtimestamp(shortcut.last_reset_timestamp) if
shortcut.last_reset_timestamp else None`.  Python truthiness makes both `None`
and a timestamp equal to 0 (the epoch) yield `None`. -/
def lastResetDt : Option Int → Option Int
  | none => none
  | some t => if t = 0 then none else some t

/-- Shallow embedding of MainWindow._determine_web_button_state
(homework_helper.pyw lines 370-396). -/
def determine_web_button_state (shortcut : WebShortcut) (current_dt : Int) :
    BtnState :=
  match shortcut.refresh_time_str with
  | none => .DEFAULT
  | some rts =>
    if rts = "" then .DEFAULT
    else
      match parseRefreshTime rts with
      | none => .DEFAULT
      | some hm =>
        let todays_refresh_event_dt := combine (dateOf current_dt) hm.1 hm.2
        let last_reset_dt := lastResetDt shortcut.last_reset_timestamp
        if todays_refresh_event_dt ≤ current_dt then
          match last_reset_dt with
          | none => .RED
          | some l => if l < todays_refresh_event_dt then .RED else .GREEN
        else
          match last_reset_dt with
          | none => .DEFAULT
          | some l =>
            if combine (dateOf current_dt - 1) hm.1 hm.2 ≤ l then .GREEN
            else .DEFAULT

/-- The record update performed by MainWindow._handle_web_button_clicked
(lines 440-458): when `refresh_time_str` is truthy the click stores the
current timestamp in `last_reset_timestamp` before calling
`update_web_shortcut`; otherwise the record is left unchanged. -/
def handle_web_button_clicked (shortcut : WebShortcut) (now_ts : Int) :
    WebShortcut :=
  if truthyStr shortcut.refresh_time_str then
    { shortcut with last_reset_timestamp := some now_ts }
  else shortcut

/-- The record built by MainWindow._edit_web_shortcut (lines 491-515) and
passed to DataManager.update_web_shortcut: the edited fields replace the old
ones, `last_reset_timestamp` carries over from the previous record, and is
cleared when the updated `refresh_time_str` is falsy. -/
def edit_web_shortcut (prev : WebShortcut) (name url : String)
    (refresh_time_str : Option String) : WebShortcut :=
  let updated : WebShortcut :=
    { id := prev.id, name := name, url := url,
      refresh_time_str := refresh_time_str,
      last_reset_timestamp := prev.last_reset_timestamp }
  if truthyStr updated.refresh_time_str then updated
  else { updated with last_reset_timestamp := none }

/-- MainWindow.__init__ (homework_helper.pyw line 121):
`self.monitor_timer.start(1000)`. -/
def mainWindow_monitor_timer_interval_ms : Nat := 1000

/-- MainWindow.__init__ (homework_helper.pyw line 122):
`self.scheduler_timer.start(1000)`. -/
def mainWindow_scheduler_timer_interval_ms : Nat := 1000

/-- HomeworkHelperWidgetApp.setup_timers (homework_helper_widget.pyw):
`self.monitor_timer.start(1000)`. -/
def widgetApp_monitor_timer_interval_ms : Nat := 1000

/-- HomeworkHelperWidgetApp.setup_timers (homework_helper_widget.pyw):
`self.scheduler_timer.start(1000)`. -/
def widgetApp_scheduler_timer_interval_ms : Nat := 1000

/-- Modelled from the spec: GlobalSettings (spec section 3) as consumed by the
status function; data_models.py is not among the provided source files. -/
structure GlobalSettings where
  sleep_start_hm : Option (Int × Int)
  sleep_end_hm : Option (Int × Int)
  run_on_startup : Bool
  run_as_admin : Bool
  always_on_top : Bool
deriving Repr

/-- Modelled from the spec: a ManagedTask record (spec section 3);
data_models.py is not among the provided source files.  Times-of-day are kept
already parsed as hour-minute pairs. -/
structure ManagedTask where
  id : String
  name : String
  monitoring_path : String
  launch_path : Option String
  server_reset_time : Option (Int × Int)
  user_cycle_hours : Option Int
  mandatory_times : List (Int × Int)
  is_mandatory_time_enabled : Bool
  last_played_timestamp : Option Int
deriving Repr

/-- Modelled from the spec: the mandatory-time requirement of spec section 4.2
steps 3-4 — when enabled, for every mandatory time-of-day whose instant today
has already passed, the completion must be at or after that instant; a
mandatory instant still in the future imposes no requirement. -/
def mandatoryOk (task : ManagedTask) (now lp : Int) : Bool :=
  !task.is_mandatory_time_enabled ||
    task.mandatory_times.all fun hm =>
      let mi := combine (dateOf now) hm.1 hm.2
      !(decide (mi ≤ now)) || decide (mi ≤ lp)

/-- Modelled from the spec: the Reset/Completion Engine's task status function
`determine_visual_status(task, now, global_settings)` of spec section 4.2; it
lives in scheduler.py (as determine_process_visual_status), which is not among
the provided source files — only its callers are.  Following the spec's steps:
(1) a running process overrides all cycle logic; (2) the cycle start is the
most recent past-or-equal daily reset in daily-reset mode, while in
rolling-cycle mode the boundary `last_played + user_cycle_hours` decides
whether the cycle has elapsed, and a missing completion timestamp means due
immediately; (3) COMPLETED iff the completion is at or after the cycle start
and satisfies the mandatory-time requirement, otherwise INCOMPLETE. -/
def determine_visual_status (running : Bool) (task : ManagedTask) (now : Int)
    (_gs : GlobalSettings) : ProcStatus :=
  if running then .RUNNING
  else
    let completed :=
      match task.last_played_timestamp with
      | none => false
      | some lp =>
        match task.server_reset_time with
        | some hm =>
          let todays := combine (dateOf now) hm.1 hm.2
          let cycleStart :=
            if todays ≤ now then todays else todays - secondsPerDay
          decide (cycleStart ≤ lp) && mandatoryOk task now lp
        | none =>
          match task.user_cycle_hours with
          | some ch => decide (now < lp + ch * 3600) && mandatoryOk task now lp
          | none => false
    if completed then .COMPLETED else .INCOMPLETE

/-- The empty refresh-time string never parses. -/
lemma parseRefreshTime_empty : parseRefreshTime "" = none := by decide

/-- A parseable refresh-time string is nonempty. -/
lemma ne_empty_of_parse {s : String} {hm : Int × Int}
    (hp : parseRefreshTime s = some hm) : s ≠ "" := by
  intro h0
  rw [h0, parseRefreshTime_empty] at hp
  exact Option.noConfusion hp

/-- Characterization of the web button state once the refresh time parses:
the source's two branches on `current_dt ≥ todays_refresh_event_dt`, with the
stored timestamp filtered through Python truthiness. -/
lemma determine_web_button_state_parse (idv nm url : String) (last : Option Int)
    (now : Int) (s : String) (h m : Int)
    (hp : parseRefreshTime s = some (h, m)) :
    determine_web_button_state ⟨idv, nm, url, some s, last⟩ now =
      if combine (dateOf now) h m ≤ now then
        match lastResetDt last with
        | none => BtnState.RED
        | some l =>
          if l < combine (dateOf now) h m then BtnState.RED else BtnState.GREEN
      else
        match lastResetDt last with
        | none => BtnState.DEFAULT
        | some l =>
          if combine (dateOf now - 1) h m ≤ l then BtnState.GREEN
          else BtnState.DEFAULT := by
  have hs : s ≠ "" := ne_empty_of_parse hp
  unfold determine_web_button_state
  simp only [if_neg hs, hp]

/-- The characterization restated for an abstract shortcut record through the
field hypothesis, so claim statements can stay on the record's fields. -/
lemma determine_web_button_state_eq (sc : WebShortcut) (now : Int) (s : String)
    (h m : Int) (hr : sc.refresh_time_str = some s)
    (hp : parseRefreshTime s = some (h, m)) :
    determine_web_button_state sc now =
      if combine (dateOf now) h m ≤ now then
        match lastResetDt sc.last_reset_timestamp with
        | none => BtnState.RED
        | some l =>
          if l < combine (dateOf now) h m then BtnState.RED else BtnState.GREEN
      else
        match lastResetDt sc.last_reset_timestamp with
        | none => BtnState.DEFAULT
        | some l =>
          if combine (dateOf now - 1) h m ≤ l then BtnState.GREEN
          else BtnState.DEFAULT := by
  obtain ⟨idv, nm, url, rt, last⟩ := sc
  have hrt : rt = some s := hr
  subst hrt
  exact determine_web_button_state_parse idv nm url last now s h m hp

/-- C1: for every managed task, whenever the liveness monitor reports the
task's monitored process as currently running, determine_visual_status
returns RUNNING, for every value of now and the global settings and
regardless of the task's cycle configuration, last_played_timestamp, or
mandatory times. -/
theorem running_overrides_cycle_logic (task : ManagedTask) (now : Int)
    (gs : GlobalSettings) :
    determine_visual_status true task now gs = ProcStatus.RUNNING := rfl

/-- C2 counterexample: with refresh_time "00:00", a present
last_reset_timestamp equal to 0 and now = 0, we have now ≥ today_reset and the
stored timestamp is not strictly earlier than today_reset, so the claim
demands GREEN; the function returns RED because Python truthiness treats the
0 timestamp as absent. -/
theorem web_state_epoch_zero_green_violation :
    combine (dateOf 0) 0 0 ≤ (0 : Int) ∧
    ¬ ((0 : Int) < combine (dateOf 0) 0 0) ∧
    determine_web_button_state ⟨"b", "B", "u", some "00:00", some 0⟩ 0 =
      BtnState.RED := by decide

/-- C2 (amended): for a parseable refresh_time and now ≥ today_reset, the
state is RED if last_reset_timestamp is absent, equal to 0 (which the code
treats as absent), or strictly earlier than today_reset, and GREEN
otherwise. -/
theorem web_state_at_or_after_reset (sc : WebShortcut) (now h m : Int)
    (s : String) (hr : sc.refresh_time_str = some s)
    (hp : parseRefreshTime s = some (h, m))
    (hge : combine (dateOf now) h m ≤ now) :
    (determine_web_button_state sc now = BtnState.RED ∨
     determine_web_button_state sc now = BtnState.GREEN) ∧
    (determine_web_button_state sc now = BtnState.RED ↔
      sc.last_reset_timestamp = none ∨ sc.last_reset_timestamp = some 0 ∨
      ∃ t, sc.last_reset_timestamp = some t ∧
        t < combine (dateOf now) h m) := by
  rw [determine_web_button_state_eq sc now s h m hr hp, if_pos hge]
  cases hl : sc.last_reset_timestamp with
  | none => simp [lastResetDt]
  | some t =>
    by_cases ht : t = 0
    · subst ht
      simp [lastResetDt]
    · simp only [lastResetDt, if_neg ht]
      by_cases hlt : t < combine (dateOf now) h m
      · simp [if_pos hlt, ht, hlt]
      · simp [if_neg hlt, ht, hlt]

/-- C2 witness: the claim's own example — refresh_time "00:00",
last_reset_timestamp absent, now one second past midnight — is RED. -/
theorem web_state_at_or_after_reset_witness :
    determine_web_button_state ⟨"b", "B", "u", some "00:00", none⟩ 1 =
      BtnState.RED :=
  ((web_state_at_or_after_reset ⟨"b", "B", "u", some "00:00", none⟩ 1 0 0
      "00:00" rfl (by decide) (by decide)).2).mpr (Or.inl rfl)

/-- C3 counterexample: refresh_time "12:00", a present last_reset_timestamp
equal to 0 and now = 0 give now < today_reset and a stored timestamp at or
after yesterday's reset, so the claim demands GREEN; the function returns
DEFAULT because Python truthiness treats the 0 timestamp as absent. -/
theorem web_state_before_reset_epoch_zero_violation :
    (0 : Int) < combine (dateOf 0) 12 0 ∧
    combine (dateOf 0 - 1) 12 0 ≤ (0 : Int) ∧
    determine_web_button_state ⟨"b", "B", "u", some "12:00", some 0⟩ 0 =
      BtnState.DEFAULT := by decide

/-- C3 (amended): for a parseable refresh_time and now < today_reset, an
absent or zero last_reset_timestamp (zero is treated as absent by the code)
gives DEFAULT; yesterday's reset is exactly today's reset minus 24 hours
(one civil day on the naive timeline); and a nonzero stored timestamp gives
GREEN when it is at or after yesterday's reset, DEFAULT otherwise. -/
theorem web_state_before_reset (sc : WebShortcut) (now h m : Int) (s : String)
    (hr : sc.refresh_time_str = some s)
    (hp : parseRefreshTime s = some (h, m))
    (hlt : now < combine (dateOf now) h m) :
    ((sc.last_reset_timestamp = none ∨ sc.last_reset_timestamp = some 0) →
      determine_web_button_state sc now = BtnState.DEFAULT) ∧
    combine (dateOf now - 1) h m = combine (dateOf now) h m - secondsPerDay ∧
    (∀ t, sc.last_reset_timestamp = some t → t ≠ 0 →
      determine_web_button_state sc now =
        if combine (dateOf now - 1) h m ≤ t then BtnState.GREEN
        else BtnState.DEFAULT) := by
  rw [determine_web_button_state_eq sc now s h m hr hp,
    if_neg (not_le.mpr hlt)]
  refine ⟨?_, ?_, ?_⟩
  · rintro (hnone | hzero)
    · simp [hnone, lastResetDt]
    · simp [hzero, lastResetDt]
  · simp only [combine, secondsPerDay]
    ring
  · intro t hsome ht
    simp [hsome, lastResetDt, ht]

/-- C3 witness: refresh_time "12:00", now at midnight, stored timestamp at
yesterday's 12:00 reset instant — GREEN. -/
theorem web_state_before_reset_witness :
    determine_web_button_state
        ⟨"b", "B", "u", some "12:00", some (-43200)⟩ 0 = BtnState.GREEN := by
  have h := (web_state_before_reset ⟨"b", "B", "u", some "12:00",
      some (-43200)⟩ 0 12 0 "12:00" rfl (by decide) (by decide)).2.2
    (-43200) rfl (by decide)
  rw [h]
  decide

/-- C4: a present but unparsable refresh_time string (missing colon,
non-numeric parts, out-of-range hour or minute, extra fields) makes the state
function return DEFAULT, for every now and every last_reset_timestamp; the
total embedding returns instead of raising, the code's fail-soft policy. -/
theorem web_state_malformed_refresh_default (sc : WebShortcut) (now : Int)
    (s : String) (hr : sc.refresh_time_str = some s)
    (hp : parseRefreshTime s = none) :
    determine_web_button_state sc now = BtnState.DEFAULT := by
  obtain ⟨idv, nm, url, rt, last⟩ := sc
  have hrt : rt = some s := hr
  subst hrt
  unfold determine_web_button_state
  by_cases hs : s = ""
  · simp [hs]
  · simp [hs, hp]

/-- C4 witness: the out-of-range hour "25:00" yields DEFAULT. -/
theorem web_state_malformed_refresh_default_witness :
    determine_web_button_state ⟨"b", "B", "u", some "25:00", some 5⟩ 100 =
      BtnState.DEFAULT :=
  web_state_malformed_refresh_default ⟨"b", "B", "u", some "25:00", some 5⟩
    100 "25:00" rfl (by decide)

/-- C5 counterexample: refresh_time "00:00", no last_reset_timestamp, and
now = today_reset = 0 (the epoch): the state is RED, yet after the click
stores timestamp 0 the state is still RED, not GREEN, because the code's
truthiness test treats the stored 0 as absent. -/
theorem web_click_epoch_roundtrip_violation :
    (0 : Int) = combine (dateOf 0) 0 0 ∧
    determine_web_button_state ⟨"b", "B", "u", some "00:00", none⟩ 0 =
      BtnState.RED ∧
    determine_web_button_state
        (handle_web_button_clicked ⟨"b", "B", "u", some "00:00", none⟩ 0) 0 ≠
      BtnState.GREEN := by decide

/-- C5 (amended): for a parseable refresh_time and now = today_reset with the
state RED, clicking (which stores now as last_reset_timestamp) flips the
state to GREEN at the same unchanged now, provided now's timestamp is not 0
(the epoch instant, which the state function treats as absent). -/
theorem web_click_roundtrip (sc : WebShortcut) (now h m : Int) (s : String)
    (hr : sc.refresh_time_str = some s)
    (hp : parseRefreshTime s = some (h, m))
    (heq : now = combine (dateOf now) h m)
    (hred : determine_web_button_state sc now = BtnState.RED)
    (hnz : now ≠ 0) :
    determine_web_button_state (handle_web_button_clicked sc now) now =
      BtnState.GREEN := by
  have hs : s ≠ "" := ne_empty_of_parse hp
  have hupd : handle_web_button_clicked sc now =
      { sc with last_reset_timestamp := some now } := by
    unfold handle_web_button_clicked
    rw [hr]
    simp [truthyStr, hs]
  rw [hupd,
    determine_web_button_state_eq { sc with last_reset_timestamp := some now }
      now s h m hr hp,
    if_pos (le_of_eq heq.symm)]
  simp only [lastResetDt, if_neg hnz]
  rw [← heq]
  simp

/-- C5 witness: refresh_time "09:00", no previous reset, now exactly at the
09:00 reset of day 1 — RED before the click, GREEN after it. -/
theorem web_click_roundtrip_witness :
    determine_web_button_state
        (handle_web_button_clicked ⟨"b", "B", "u", some "09:00", none⟩ 118800)
        118800 = BtnState.GREEN :=
  web_click_roundtrip ⟨"b", "B", "u", some "09:00", none⟩ 118800 9 0 "09:00"
    rfl (by decide) (by decide) (by decide) (by decide)

/-- C6: editing a shortcut so that the updated record has no refresh_time
(absent or empty) clears last_reset_timestamp in the record passed to
update_web_shortcut, regardless of the previous value; keeping a refresh_time
preserves the previous last_reset_timestamp. -/
theorem edit_clears_last_reset (prev : WebShortcut) (name url : String)
    (rt : Option String) :
    ((rt = none ∨ rt = some "") →
      (edit_web_shortcut prev name url rt).last_reset_timestamp = none) ∧
    (∀ s, rt = some s → s ≠ "" →
      (edit_web_shortcut prev name url rt).last_reset_timestamp =
        prev.last_reset_timestamp) := by
  constructor
  · rintro (rfl | rfl) <;> simp [edit_web_shortcut, truthyStr]
  · rintro s rfl hs
    simp [edit_web_shortcut, truthyStr, hs]

/-- C6 witness: removing the refresh time clears the stored timestamp, while
keeping one preserves it. -/
theorem edit_clears_last_reset_witness :
    (edit_web_shortcut ⟨"i", "n", "u", some "09:00", some 5⟩ "n2" "u2"
        none).last_reset_timestamp = none ∧
    (edit_web_shortcut ⟨"i", "n", "u", some "09:00", some 5⟩ "n2" "u2"
        (some "10:00")).last_reset_timestamp = some 5 :=
  ⟨(edit_clears_last_reset ⟨"i", "n", "u", some "09:00", some 5⟩ "n2" "u2"
      none).1 (Or.inl rfl),
   (edit_clears_last_reset ⟨"i", "n", "u", some "09:00", some 5⟩ "n2" "u2"
      (some "10:00")).2 "10:00" rfl (by decide)⟩

/-- C7: a shortcut whose refresh_time is absent (None or the empty string)
is DEFAULT for every now and every last_reset_timestamp; a stored timestamp
without a refresh_time never affects the result. -/
theorem no_refresh_time_default (sc : WebShortcut) (now : Int)
    (hr : sc.refresh_time_str = none ∨ sc.refresh_time_str = some "") :
    determine_web_button_state sc now = BtnState.DEFAULT := by
  obtain ⟨idv, nm, url, rt, last⟩ := sc
  have hrt : rt = none ∨ rt = some "" := hr
  rcases hrt with rfl | rfl <;> simp [determine_web_button_state]

/-- C7 witness: both a None and an empty refresh_time give DEFAULT even with
a stored timestamp present. -/
theorem no_refresh_time_default_witness :
    determine_web_button_state ⟨"b", "B", "u", none, some 7⟩ 42 =
      BtnState.DEFAULT ∧
    determine_web_button_state ⟨"b", "B", "u", some "", some 7⟩ 42 =
      BtnState.DEFAULT :=
  ⟨no_refresh_time_default ⟨"b", "B", "u", none, some 7⟩ 42 (Or.inl rfl),
   no_refresh_time_default ⟨"b", "B", "u", some "", some 7⟩ 42 (Or.inr rfl)⟩

/-- C8 counterexample: the widget variant's setup_timers starts both tick
timers with 1000 ms, not the 10000 ms the claim states. -/
theorem widget_timer_interval_not_ten_seconds :
    widgetApp_monitor_timer_interval_ms = 1000 ∧
    widgetApp_scheduler_timer_interval_ms = 1000 ∧
    widgetApp_monitor_timer_interval_ms ≠ 10000 ∧
    widgetApp_scheduler_timer_interval_ms ≠ 10000 := by decide

/-- C8 (amended): both the always-on main window and the widget variant start
their process-monitor and scheduler tick timers with a 1-second (1000 ms)
interval. -/
theorem timer_intervals_one_second :
    mainWindow_monitor_timer_interval_ms = 1000 ∧
    mainWindow_scheduler_timer_interval_ms = 1000 ∧
    widgetApp_monitor_timer_interval_ms = 1000 ∧
    widgetApp_scheduler_timer_interval_ms = 1000 := by decide

/-- C9: a last_reset_timestamp equal to 0 (the epoch) makes the state function
behave exactly as if the timestamp were absent; in particular, with a
parseable refresh_time the state is DEFAULT before today_reset and RED at or
after it, even though a timestamp value is present. -/
theorem epoch_zero_timestamp_as_absent (sc : WebShortcut) (now : Int)
    (h0 : sc.last_reset_timestamp = some 0) :
    determine_web_button_state sc now =
      determine_web_button_state
        { sc with last_reset_timestamp := none } now ∧
    (∀ h m s, sc.refresh_time_str = some s →
      parseRefreshTime s = some (h, m) →
      (now < combine (dateOf now) h m →
        determine_web_button_state sc now = BtnState.DEFAULT) ∧
      (combine (dateOf now) h m ≤ now →
        determine_web_button_state sc now = BtnState.RED)) := by
  obtain ⟨idv, nm, url, rt, last⟩ := sc
  have hl : last = some 0 := h0
  subst hl
  constructor
  · cases rt with
    | none => rfl
    | some s =>
      unfold determine_web_button_state
      by_cases hs : s = ""
      · simp [hs]
      · cases hps : parseRefreshTime s with
        | none => simp [hs, hps]
        | some hm => simp [hs, hps, lastResetDt]
  · intro h m s hr hp
    have hrt : rt = some s := hr
    subst hrt
    rw [determine_web_button_state_parse idv nm url (some 0) now s h m hp]
    constructor
    · intro hlt
      rw [if_neg (not_le.mpr hlt)]
      simp [lastResetDt]
    · intro hge
      rw [if_pos hge]
      simp [lastResetDt]

/-- C9 witness: refresh_time "09:00" with stored timestamp 0 — DEFAULT before
the 09:00 reset, RED after it. -/
theorem epoch_zero_timestamp_as_absent_witness :
    determine_web_button_state ⟨"b", "B", "u", some "09:00", some 0⟩ 1000 =
      BtnState.DEFAULT ∧
    determine_web_button_state ⟨"b", "B", "u", some "09:00", some 0⟩ 40000 =
      BtnState.RED :=
  ⟨((epoch_zero_timestamp_as_absent ⟨"b", "B", "u", some "09:00", some 0⟩
      1000 rfl).2 9 0 "09:00" rfl (by decide)).1 (by decide),
   ((epoch_zero_timestamp_as_absent ⟨"b", "B", "u", some "09:00", some 0⟩
      40000 rfl).2 9 0 "09:00" rfl (by decide)).2 (by decide)⟩

/-- C10: for a parseable refresh_time and now strictly before today_reset, the
state function never returns RED: a shortcut cannot signal a needed reset
before its daily reset instant has passed. -/
theorem no_red_before_reset (sc : WebShortcut) (now h m : Int) (s : String)
    (hr : sc.refresh_time_str = some s)
    (hp : parseRefreshTime s = some (h, m))
    (hlt : now < combine (dateOf now) h m) :
    determine_web_button_state sc now ≠ BtnState.RED := by
  rw [determine_web_button_state_eq sc now s h m hr hp,
    if_neg (not_le.mpr hlt)]
  cases lastResetDt sc.last_reset_timestamp with
  | none => simp
  | some l =>
    dsimp only
    split <;> simp

/-- C10 witness: refresh_time "09:00", a stale stored timestamp, now before
the reset — the state is not RED. -/
theorem no_red_before_reset_witness :
    determine_web_button_state ⟨"b", "B", "u", some "09:00", some 3⟩ 1000 ≠
      BtnState.RED :=
  no_red_before_reset ⟨"b", "B", "u", some "09:00", some 3⟩ 1000 9 0 "09:00"
    rfl (by decide) (by decide)

end HomeworkHelper
